import Mathlib

/-!
Verification of the wcf-http message-forwarding core.

Shallow embedding of `src/wcf_http/core.py` (the `Msg` model, the
`_forward_msg` delivery sink, and the polling loop `callback` installed by
`_set_cb`), together with spec-modelled definitions for the pieces that live
in the external `wcferry` package (`WxMsg.from_self`, `WxMsg.from_group`,
`WxMsg.__str__`), since only their call sites are in the repository.

The loop is modelled over a finite trace of poll results: the list of
outcomes `wcf.get_msg()` produces while `wcf.is_receiving_msg()` stays true;
the end of the list is the source turning inactive.  Side effects (log
lines, `print`, the HTTP POST attempt) are reified as an `Act` trace.
Exceptions raised by the flag derivations inside the payload dict are
modelled with `Except`-valued check functions in the environment; the
HTTP call's outcome (a status code or a raised transport exception) is an
oracle function in the environment.
-/

/-- The raw engine event (`wcferry.WxMsg` data fields, read by
`_forward_msg`): id, ts, sign, type, xml, sender, roomid, content, thumb,
extra. -/
structure WxMsg where
  id : Nat
  ts : Nat
  sign : String
  type : Nat
  xml : String
  sender : String
  roomid : String
  content : String
  thumb : String
  extra : String
deriving DecidableEq, Repr

/-- Modelled from the spec: `fromSelf` is the "equality check between
`senderId` and the local identity".  The method `WxMsg.from_self` itself
lives in the external `wcferry` package, not under this repository's
source. -/
def WxMsg.from_self (m : WxMsg) (self_wxid : String) : Bool :=
  m.sender == self_wxid

/-- Modelled from the spec: `fromGroup` is the "non-emptiness check on
`groupId`".  The method `WxMsg.from_group` itself lives in the external
`wcferry` package. -/
def WxMsg.from_group (m : WxMsg) : Bool :=
  m.roomid != ""

/-- Modelled from the spec: the local string rendering of the full event
(Python's `f"{msg}"`, whose `__str__` lives in the external `wcferry`
package); all event fields appear in it. -/
def WxMsg.render (m : WxMsg) : String :=
  toString m.id ++ " " ++ toString m.ts ++ " " ++ m.sign ++ " " ++
    toString m.type ++ " " ++ m.xml ++ " " ++ m.sender ++ " " ++ m.roomid ++
    " " ++ m.content ++ " " ++ m.thumb ++ " " ++ m.extra

/-- The wire payload (`core.py` lines 18-31, class `Msg`): exactly the
thirteen fields of the JSON body. -/
structure Msg where
  id : Nat
  ts : Nat
  sign : String
  type : Nat
  xml : String
  sender : String
  roomid : String
  content : String
  thumb : String
  extra : String
  is_at : Bool
  is_self : Bool
  is_group : Bool
deriving DecidableEq, Repr

/-- Outcome of one `requests.post` call: a response with a status code, or
a raised transport exception. -/
inductive PostOutcome where
  | status (code : Nat)
  | raised (e : String)
deriving DecidableEq, Repr

/-- One observable side effect of the loop: `LOG.info`, `LOG.error`,
`print`, or the outbound HTTP POST attempt (with its timeout in seconds). -/
inductive Act where
  | infoLog (s : String)
  | errorLog (s : String)
  | printOut (s : String)
  | httpPost (url : String) (body : Msg) (timeoutSec : Nat)
deriving DecidableEq, Repr

/-- Outcome of one `wcf.get_msg()` call inside the loop: an event, the
`queue.Empty` signal, or some other raised exception. -/
inductive PollResult where
  | msg (m : WxMsg)
  | empty
  | raised (e : String)
deriving DecidableEq, Repr

/-- The fixed request timeout: `requests.post(url=cb, json=data, timeout=30)`
at `core.py` line 93. -/
def requestTimeout : Nat := 30

/-- Environment of the forwarding pipeline: the local identity
(`wcf.self_wxid`), the configured callback URL `cb`, the three flag
derivations of the payload dict (each may raise, modelled as `Except`),
and the HTTP oracle giving each POST attempt's outcome. -/
structure Env where
  self_wxid : String
  cb : String
  is_at_check : WxMsg → String → Except String Bool
  from_self_check : WxMsg → Except String Bool
  from_group_check : WxMsg → Except String Bool
  post : String → Msg → Nat → PostOutcome

/-- Result of running `_forward_msg`: the actions it performed, and the
exception escaping to its caller, if any. -/
structure RunResult where
  actions : List Act
  exn : Option String
deriving DecidableEq, Repr

/-- Lines 92-97 of core.py: the guarded send inside `_forward_msg`.  One
POST attempt with the fixed timeout; a non-200 status logs an error with
the status code; a raised transport exception logs an error with its
description; nothing is retried and nothing escapes. -/
def sendPayload (post : String → Msg → Nat → PostOutcome) (cb : String)
    (data : Msg) : List Act :=
  Act.httpPost cb data requestTimeout ::
    match post cb data requestTimeout with
    | PostOutcome.status code =>
        if code == 200 then []
        else [Act.errorLog ("消息转发失败，HTTP 状态码为: " ++ toString code)]
    | PostOutcome.raised e =>
        [Act.errorLog ("消息转发异常: " ++ e)]

/-- Lines 75-97 of core.py, `_forward_msg`: build the thirteen-field payload
dict (the three flag derivations run in order outside the `try`, so an
exception there escapes with no POST made), then run the guarded send. -/
def _forward_msg (env : Env) (m : WxMsg) : RunResult :=
  match env.is_at_check m env.self_wxid with
  | Except.error e => ⟨[], some e⟩
  | Except.ok a =>
    match env.from_self_check m with
    | Except.error e => ⟨[], some e⟩
    | Except.ok s =>
      match env.from_group_check m with
      | Except.error e => ⟨[], some e⟩
      | Except.ok g =>
        let data : Msg :=
          { id := m.id, ts := m.ts, sign := m.sign, type := m.type,
            xml := m.xml, sender := m.sender, roomid := m.roomid,
            content := m.content, thumb := m.thumb, extra := m.extra,
            is_at := a, is_self := s, is_group := g }
        ⟨sendPayload env.post env.cb data, none⟩

/-- The payload `_forward_msg` builds when no flag derivation raises, with
the spec-modelled flag semantics: the ten event fields copied, `is_at` from
the engine-supplied membership check against the local identity, `is_self`
and `is_group` per `WxMsg.from_self` / `WxMsg.from_group`. -/
def forwardPayload (ia : WxMsg → String → Bool) (self_wxid : String)
    (m : WxMsg) : Msg :=
  { id := m.id, ts := m.ts, sign := m.sign, type := m.type, xml := m.xml,
    sender := m.sender, roomid := m.roomid, content := m.content,
    thumb := m.thumb, extra := m.extra,
    is_at := ia m self_wxid,
    is_self := m.from_self self_wxid,
    is_group := m.from_group }

/-- The environment in which no flag derivation raises: `is_at` is an
arbitrary total engine-supplied check, `is_self`/`is_group` are the
spec-modelled derivations. -/
def pureEnv (ia : WxMsg → String → Bool) (self_wxid cb : String)
    (post : String → Msg → Nat → PostOutcome) : Env :=
  { self_wxid := self_wxid, cb := cb,
    is_at_check := fun m w => Except.ok (ia m w),
    from_self_check := fun m => Except.ok (m.from_self self_wxid),
    from_group_check := fun m => Except.ok m.from_group,
    post := post }

/-- One iteration of the loop body in `callback` (`core.py` lines 102-112):
on an event, if `cb` is non-empty, log the info line then run
`_forward_msg` (an exception escaping it is caught by the loop's handler
and logged); otherwise `print` the raw event.  `queue.Empty` is swallowed;
any other poll exception is logged. -/
def callbackStep (env : Env) (p : PollResult) : List Act :=
  match p with
  | PollResult.empty => []
  | PollResult.raised e =>
      [Act.errorLog ("Receiving message error: " ++ e)]
  | PollResult.msg m =>
      if env.cb != "" then
        let r := _forward_msg env m
        Act.infoLog ("收到消息，转发至回调：" ++ m.render) ::
          (r.actions ++
            match r.exn with
            | none => []
            | some e => [Act.errorLog ("Receiving message error: " ++ e)])
      else
        [Act.printOut ("收到消息：" ++ m.render)]

/-- The loop of `callback` (`core.py` lines 100-112) over the finite trace
of poll results produced while `wcf.is_receiving_msg()` holds; the loop
exits exactly when the trace ends (the source reports inactive). -/
def callback (env : Env) : List PollResult → List Act
  | [] => []
  | p :: rest => callbackStep env p ++ callback env rest

/-- Is this action the outbound HTTP POST attempt? -/
def Act.isPost : Act → Bool
  | Act.httpPost _ _ _ => true
  | _ => false

/-- Is this action an error-log line? -/
def Act.isErrorLog : Act → Bool
  | Act.errorLog _ => true
  | _ => false

/-- The HTTP POST attempts of a trace, in order. -/
def posts (as : List Act) : List Act :=
  as.filter Act.isPost

/-- The events among a list of poll results, in order. -/
def pollMsgs (ps : List PollResult) : List WxMsg :=
  ps.filterMap fun p =>
    match p with
    | PollResult.msg m => some m
    | _ => none

example :
    pollMsgs [PollResult.empty, PollResult.msg ⟨1, 2, "s", 3, "x", "a", "r", "c", "t", "e"⟩] =
      [⟨1, 2, "s", 3, "x", "a", "r", "c", "t", "e"⟩] := by decide

/-- The event part of a payload: the ten copied fields, read back. -/
def payloadEvent (d : Msg) : WxMsg :=
  { id := d.id, ts := d.ts, sign := d.sign, type := d.type, xml := d.xml,
    sender := d.sender, roomid := d.roomid, content := d.content,
    thumb := d.thumb, extra := d.extra }

theorem forward_msg_pureEnv (ia : WxMsg → String → Bool)
    (self cb : String) (post : String → Msg → Nat → PostOutcome) (m : WxMsg) :
    _forward_msg (pureEnv ia self cb post) m =
      ⟨sendPayload post cb (forwardPayload ia self m), none⟩ := rfl

theorem posts_sendPayload (post : String → Msg → Nat → PostOutcome)
    (cb : String) (data : Msg) :
    posts (sendPayload post cb data) = [Act.httpPost cb data requestTimeout] := by
  unfold sendPayload posts
  cases post cb data requestTimeout with
  | status code =>
      by_cases h : code == 200 <;> simp [h, Act.isPost]
  | raised e => simp [Act.isPost]

theorem callbackStep_pure_msg (ia : WxMsg → String → Bool) (self cb : String)
    (post : String → Msg → Nat → PostOutcome) (m : WxMsg) (h : cb ≠ "") :
    callbackStep (pureEnv ia self cb post) (PollResult.msg m) =
      Act.infoLog ("收到消息，转发至回调：" ++ m.render) ::
        sendPayload post cb (forwardPayload ia self m) := by
  have hcb : ((pureEnv ia self cb post).cb != "") = true := by
    simp [pureEnv, h]
  simp [callbackStep, hcb, forward_msg_pureEnv]

theorem callback_append (env : Env) (xs ys : List PollResult) :
    callback env (xs ++ ys) = callback env xs ++ callback env ys := by
  induction xs with
  | nil => simp [callback]
  | cons p rest ih => simp [callback, ih]

theorem posts_callback_pure (ia : WxMsg → String → Bool) (self cb : String)
    (post : String → Msg → Nat → PostOutcome) (polls : List PollResult)
    (h : cb ≠ "") :
    posts (callback (pureEnv ia self cb post) polls) =
      (pollMsgs polls).map
        (fun m => Act.httpPost cb (forwardPayload ia self m) requestTimeout) := by
  induction polls with
  | nil => simp [callback, posts, pollMsgs]
  | cons p rest ih =>
      cases p with
      | empty =>
          simpa [callback, callbackStep, posts, pollMsgs] using ih
      | raised e =>
          simpa [callback, callbackStep, posts, pollMsgs, Act.isPost] using ih
      | msg m =>
          rw [callback, callbackStep_pure_msg ia self cb post m h]
          have hp := posts_sendPayload post cb (forwardPayload ia self m)
          simp only [posts] at hp ih ⊢
          simp [List.filter_cons, List.filter_append, Act.isPost, hp,
            pollMsgs, List.filterMap_cons, ih]

theorem callbackStep_no_cb (ia : WxMsg → String → Bool) (self : String)
    (post : String → Msg → Nat → PostOutcome) (m : WxMsg) :
    callbackStep (pureEnv ia self "" post) (PollResult.msg m) =
      [Act.printOut ("收到消息：" ++ m.render)] := by
  simp [callbackStep, pureEnv]

theorem forward_msg_exn_actions (env : Env) (m : WxMsg) (e : String)
    (h : (_forward_msg env m).exn = some e) :
    (_forward_msg env m).actions = [] := by
  unfold _forward_msg at h ⊢
  cases hc1 : env.is_at_check m env.self_wxid with
  | error e2 => simp [hc1]
  | ok a =>
    cases hc2 : env.from_self_check m with
    | error e2 => simp [hc1, hc2]
    | ok s =>
      cases hc3 : env.from_group_check m with
      | error e2 => simp [hc1, hc2, hc3]
      | ok g => rw [hc1, hc2, hc3] at h; simp at h

theorem no_error_of_all_200 (ia : WxMsg → String → Bool) (self cb : String)
    (post : String → Msg → Nat → PostOutcome) (hcb : cb ≠ "")
    (hall : ∀ u d t, post u d t = PostOutcome.status 200) :
    ∀ polls : List PollResult, (∀ e, PollResult.raised e ∉ polls) →
      ∀ s, Act.errorLog s ∉ callback (pureEnv ia self cb post) polls := by
  intro polls
  induction polls with
  | nil => intro _ s hmem; simp [callback] at hmem
  | cons p rest ih =>
      intro hnr s
      have hnr' : ∀ e, PollResult.raised e ∉ rest :=
        fun e he => hnr e (List.mem_cons_of_mem _ he)
      cases p with
      | empty =>
          rw [callback]
          simpa [callbackStep] using ih hnr' s
      | raised e => exact absurd (List.mem_cons_self _ _) (hnr e)
      | msg m =>
          rw [callback, callbackStep_pure_msg ia self cb post m hcb]
          have hsend : sendPayload post cb (forwardPayload ia self m) =
              [Act.httpPost cb (forwardPayload ia self m) requestTimeout] := by
            simp [sendPayload, hall]
          simp [hsend, ih hnr' s]

/-- A sample event used in concrete instantiations. -/
def sampleMsg : WxMsg :=
  ⟨1, 1700000000, "sig", 1, "<x/>", "bob", "room1", "hello", "", "extra"⟩

/-- An environment whose `is_at` derivation raises, used in concrete
instantiations. -/
def faultyEnv : Env :=
  { self_wxid := "alice", cb := "http://sink/cb",
    is_at_check := fun _ _ => Except.error "boom",
    from_self_check := fun m => Except.ok (m.from_self "alice"),
    from_group_check := fun m => Except.ok m.from_group,
    post := fun _ _ _ => PostOutcome.status 200 }

/-- Claim C1: for every event pulled from the source, if the configured
callback URL is empty then no HTTP call is made (over any whole trace) and
the raw event is printed to local output; if the callback URL is non-empty
then the DeliveryPayload is built and exactly one HTTP POST attempt is made
to that URL. -/
theorem c1_dispatch_exclusivity (ia : WxMsg → String → Bool) (self : String)
    (post : String → Msg → Nat → PostOutcome) :
    (∀ polls, posts (callback (pureEnv ia self "" post) polls) = []) ∧
    (∀ m, callbackStep (pureEnv ia self "" post) (PollResult.msg m) =
        [Act.printOut ("收到消息：" ++ m.render)]) ∧
    (∀ cb m, cb ≠ "" →
        posts (callbackStep (pureEnv ia self cb post) (PollResult.msg m)) =
          [Act.httpPost cb (forwardPayload ia self m) requestTimeout]) := by
  refine ⟨?_, fun m => callbackStep_no_cb ia self post m, ?_⟩
  · intro polls
    induction polls with
    | nil => simp [callback, posts]
    | cons p rest ih =>
        cases p with
        | empty => simpa [callback, callbackStep, posts] using ih
        | raised e =>
            rw [callback]
            simpa [callbackStep, posts, Act.isPost] using ih
        | msg m =>
            rw [callback, callbackStep_no_cb ia self post m]
            simpa [posts, Act.isPost] using ih
  · intro cb m h
    rw [callbackStep_pure_msg ia self cb post m h]
    have hp := posts_sendPayload post cb (forwardPayload ia self m)
    simp only [posts] at hp ⊢
    simp [List.filter_cons, Act.isPost, hp]

/-- Witness for C1: concrete event forwarded once to a concrete non-empty
callback URL. -/
theorem c1_dispatch_exclusivity_witness :
    posts (callbackStep
        (pureEnv (fun _ _ => false) "alice" "http://sink/cb"
          (fun _ _ _ => PostOutcome.status 200))
        (PollResult.msg sampleMsg)) =
      [Act.httpPost "http://sink/cb"
        (forwardPayload (fun _ _ => false) "alice" sampleMsg)
        requestTimeout] :=
  (c1_dispatch_exclusivity (fun _ _ => false) "alice"
      (fun _ _ _ => PostOutcome.status 200)).2.2 "http://sink/cb" sampleMsg
    (by decide)

/-- Claim C2: the payload's `is_self` equals the string-equality check
between the event's sender and the local identity, and `is_group` is true
exactly when the event's group id is non-empty; the concrete event with
sender "A" and empty group id under identity "A" gives is_self true,
is_group false. -/
theorem c2_flag_derivation (ia : WxMsg → String → Bool) (self : String)
    (m : WxMsg) :
    (forwardPayload ia self m).is_self = (m.sender == self) ∧
    ((forwardPayload ia self m).is_group = true ↔ m.roomid ≠ "") ∧
    (forwardPayload ia "A" ⟨0, 0, "", 0, "", "A", "", "", "", ""⟩).is_self =
      true ∧
    (forwardPayload ia "A" ⟨0, 0, "", 0, "", "A", "", "", "", ""⟩).is_group =
      false := by
  refine ⟨rfl, ?_, ?_, ?_⟩
  · simp [forwardPayload, WxMsg.from_group]
  · simp [forwardPayload, WxMsg.from_self]
  · simp [forwardPayload, WxMsg.from_group]

/-- Claim C6: the POST body has exactly the thirteen wire fields, each
copied or derived from the corresponding event field, and every HTTP POST
attempt uses the fixed 30-second timeout. -/
theorem c6_wire_format_and_timeout (ia : WxMsg → String → Bool)
    (self : String) (m : WxMsg) :
    (forwardPayload ia self m).id = m.id ∧
    (forwardPayload ia self m).ts = m.ts ∧
    (forwardPayload ia self m).sign = m.sign ∧
    (forwardPayload ia self m).type = m.type ∧
    (forwardPayload ia self m).xml = m.xml ∧
    (forwardPayload ia self m).sender = m.sender ∧
    (forwardPayload ia self m).roomid = m.roomid ∧
    (forwardPayload ia self m).content = m.content ∧
    (forwardPayload ia self m).thumb = m.thumb ∧
    (forwardPayload ia self m).extra = m.extra ∧
    (forwardPayload ia self m).is_at = ia m self ∧
    (forwardPayload ia self m).is_self = m.from_self self ∧
    (forwardPayload ia self m).is_group = m.from_group ∧
    requestTimeout = 30 ∧
    (∀ post cb data, posts (sendPayload post cb data) =
        [Act.httpPost cb data 30]) := by
  refine ⟨rfl, rfl, rfl, rfl, rfl, rfl, rfl, rfl, rfl, rfl, rfl, rfl, rfl,
    rfl, ?_⟩
  intro post cb data
  simpa [requestTimeout] using posts_sendPayload post cb data

/-- Claim C7: an empty poll (the `queue.Empty` signal) produces no action at
all — no error log — and the loop just continues with the rest of the
trace. -/
theorem c7_empty_poll (env : Env) (rest : List PollResult) :
    callbackStep env PollResult.empty = [] ∧
    callback env (PollResult.empty :: rest) = callback env rest := by
  exact ⟨rfl, by simp [callback, callbackStep]⟩

/-- Claim C8: payload construction is a pure, deterministic function of the
event and the local identity — identical inputs give identical outputs —
and the event is not mutated: its ten fields are recoverable unchanged from
the payload. -/
theorem c8_normalizer_purity (ia : WxMsg → String → Bool) (self : String)
    (m₁ m₂ : WxMsg) (h : m₁ = m₂) :
    forwardPayload ia self m₁ = forwardPayload ia self m₂ ∧
    payloadEvent (forwardPayload ia self m₁) = m₁ := by
  subst h
  exact ⟨rfl, rfl⟩

/-- Witness for C8 at a concrete event and identity. -/
theorem c8_normalizer_purity_witness :
    forwardPayload (fun _ _ => true) "alice" sampleMsg =
      forwardPayload (fun _ _ => true) "alice" sampleMsg ∧
    payloadEvent (forwardPayload (fun _ _ => true) "alice" sampleMsg) =
      sampleMsg :=
  c8_normalizer_purity (fun _ _ => true) "alice" sampleMsg sampleMsg rfl

/-- Claim C3: a delivery error is logged iff the response status is not 200
or a transport failure occurred; the non-200 log contains the status code;
the payload is dropped after exactly one attempt with no retry; no
exception escapes the sink; and if every call returns 200 the loop never
logs any error. -/
theorem c3_delivery_failure_handling (post : String → Msg → Nat → PostOutcome)
    (cb : String) (data : Msg) :
    ((∃ s, Act.errorLog s ∈ sendPayload post cb data) ↔
        post cb data requestTimeout ≠ PostOutcome.status 200) ∧
    (∀ code, post cb data requestTimeout = PostOutcome.status code →
        code ≠ 200 →
        Act.errorLog ("消息转发失败，HTTP 状态码为: " ++ toString code) ∈
          sendPayload post cb data) ∧
    posts (sendPayload post cb data) =
      [Act.httpPost cb data requestTimeout] ∧
    (∀ ia self cb2 m,
        (_forward_msg (pureEnv ia self cb2 post) m).exn = none) ∧
    (∀ ia self cb2 polls, cb2 ≠ "" →
        (∀ u d t, post u d t = PostOutcome.status 200) →
        (∀ e, PollResult.raised e ∉ polls) →
        ∀ s, Act.errorLog s ∉ callback (pureEnv ia self cb2 post) polls) := by
  refine ⟨?_, ?_, posts_sendPayload post cb data, fun ia self cb2 m => rfl,
    ?_⟩
  · cases h : post cb data requestTimeout with
    | status code =>
        by_cases hc : code = 200
        · subst hc; simp [sendPayload, h]
        · simp [sendPayload, h, hc]
    | raised e2 => simp [sendPayload, h]
  · intro code h1 h2
    simp [sendPayload, h1, h2]
  · intro ia self cb2 polls hcb hall hnr
    exact no_error_of_all_200 ia self cb2 post hcb hall polls hnr

/-- Witness for C3: a 500 response logs an error containing "500"; with an
all-200 sink, a concrete trace logs no error at all. -/
theorem c3_delivery_failure_handling_witness :
    (Act.errorLog ("消息转发失败，HTTP 状态码为: " ++ toString 500) ∈
        sendPayload (fun _ _ _ => PostOutcome.status 500) "http://sink/cb"
          (forwardPayload (fun _ _ => false) "alice" sampleMsg)) ∧
    Act.errorLog "500" ∉
      callback (pureEnv (fun _ _ => false) "alice" "http://sink/cb"
          (fun _ _ _ => PostOutcome.status 200))
        [PollResult.msg sampleMsg, PollResult.empty] :=
  ⟨(c3_delivery_failure_handling (fun _ _ _ => PostOutcome.status 500)
      "http://sink/cb"
      (forwardPayload (fun _ _ => false) "alice" sampleMsg)).2.1 500 rfl
      (by decide),
   (c3_delivery_failure_handling (fun _ _ _ => PostOutcome.status 200)
      "http://sink/cb"
      (forwardPayload (fun _ _ => false) "alice" sampleMsg)).2.2.2.2
      (fun _ _ => false) "alice" "http://sink/cb"
      [PollResult.msg sampleMsg, PollResult.empty] (by decide)
      (fun _ _ _ => rfl) (by intro e; simp) "500"⟩

/-- Claim C4: over any finite trace, the HTTP POST attempts are exactly one
per polled event, to the configured URL, in the same relative order with no
duplication or reordering (so at most N attempts for N polls), and the
handling of each poll completes before the next one starts. -/
theorem c4_ordering_at_most_once (ia : WxMsg → String → Bool)
    (self cb : String) (post : String → Msg → Nat → PostOutcome)
    (polls : List PollResult) (h : cb ≠ "") :
    posts (callback (pureEnv ia self cb post) polls) =
      (pollMsgs polls).map
        (fun m => Act.httpPost cb (forwardPayload ia self m)
          requestTimeout) ∧
    (posts (callback (pureEnv ia self cb post) polls)).length ≤
      polls.length ∧
    ∀ p rest, callback (pureEnv ia self cb post) (p :: rest) =
        callbackStep (pureEnv ia self cb post) p ++
          callback (pureEnv ia self cb post) rest := by
  refine ⟨posts_callback_pure ia self cb post polls h, ?_, fun p rest => rfl⟩
  rw [posts_callback_pure ia self cb post polls h, List.length_map]
  unfold pollMsgs
  exact List.length_filterMap_le _ _

/-- Witness for C4: a concrete three-poll trace with one event yields
exactly that event's POST. -/
theorem c4_ordering_at_most_once_witness :
    posts (callback (pureEnv (fun _ _ => false) "alice" "http://sink/cb"
        (fun _ _ _ => PostOutcome.status 200))
        [PollResult.msg sampleMsg, PollResult.empty,
          PollResult.raised "oops"]) =
      (pollMsgs [PollResult.msg sampleMsg, PollResult.empty,
          PollResult.raised "oops"]).map
        (fun m => Act.httpPost "http://sink/cb"
          (forwardPayload (fun _ _ => false) "alice" m) requestTimeout) :=
  (c4_ordering_at_most_once (fun _ _ => false) "alice" "http://sink/cb"
      (fun _ _ _ => PostOutcome.status 200)
      [PollResult.msg sampleMsg, PollResult.empty, PollResult.raised "oops"]
      (by decide)).1

/-- Claim C5: any exception other than the empty-poll signal raised while
polling or while handling one event is logged and the loop continues with
the remaining trace; processing a trace never truncates it, and the loop
ends only when the trace (the active lifetime of the source) ends. -/
theorem c5_fault_containment (env : Env) :
    (∀ xs ys, callback env (xs ++ ys) =
        callback env xs ++ callback env ys) ∧
    (∀ e rest, callback env (PollResult.raised e :: rest) =
        Act.errorLog ("Receiving message error: " ++ e) ::
          callback env rest) ∧
    (∀ m e rest, env.cb ≠ "" → (_forward_msg env m).exn = some e →
        callback env (PollResult.msg m :: rest) =
          Act.infoLog ("收到消息，转发至回调：" ++ m.render) ::
            Act.errorLog ("Receiving message error: " ++ e) ::
              callback env rest) := by
  refine ⟨callback_append env, ?_, ?_⟩
  · intro e rest
    rw [callback]
    simp [callbackStep]
  · intro m e rest hcb hexn
    have hact := forward_msg_exn_actions env m e hexn
    have hcb' : (env.cb != "") = true := by simp [hcb]
    rw [callback]
    simp [callbackStep, hcb', hact, hexn]

/-- Witness for C5: in a concrete environment whose flag derivation raises,
the event's fault is logged and the loop continues. -/
theorem c5_fault_containment_witness :
    callback faultyEnv ([PollResult.empty] ++ [PollResult.msg sampleMsg]) =
      callback faultyEnv [PollResult.empty] ++
        callback faultyEnv [PollResult.msg sampleMsg] ∧
    callback faultyEnv [PollResult.raised "oops"] =
      Act.errorLog ("Receiving message error: " ++ "oops") ::
        callback faultyEnv [] ∧
    callback faultyEnv [PollResult.msg sampleMsg] =
      Act.infoLog ("收到消息，转发至回调：" ++ sampleMsg.render) ::
        Act.errorLog ("Receiving message error: " ++ "boom") ::
          callback faultyEnv [] :=
  ⟨(c5_fault_containment faultyEnv).1 [PollResult.empty]
      [PollResult.msg sampleMsg],
   (c5_fault_containment faultyEnv).2.1 "oops" [],
   (c5_fault_containment faultyEnv).2.2 sampleMsg "boom" [] (by decide) rfl⟩

/-- Claim C9: when the callback URL is non-empty, handling an event emits
the INFO log line containing the full event first, before the delivery
attempt, in addition to the remote forwarding. -/
theorem c9_local_emission_with_callback (ia : WxMsg → String → Bool)
    (self cb : String) (post : String → Msg → Nat → PostOutcome)
    (m : WxMsg) (h : cb ≠ "") :
    callbackStep (pureEnv ia self cb post) (PollResult.msg m) =
      Act.infoLog ("收到消息，转发至回调：" ++ m.render) ::
        sendPayload post cb (forwardPayload ia self m) ∧
    (callbackStep (pureEnv ia self cb post) (PollResult.msg m)).head? =
      some (Act.infoLog ("收到消息，转发至回调：" ++ m.render)) := by
  have hs := callbackStep_pure_msg ia self cb post m h
  exact ⟨hs, by rw [hs]; rfl⟩

/-- Witness for C9 at a concrete event and callback URL. -/
theorem c9_local_emission_with_callback_witness :
    (callbackStep (pureEnv (fun _ _ => false) "alice" "http://sink/cb"
        (fun _ _ _ => PostOutcome.status 200))
        (PollResult.msg sampleMsg)).head? =
      some (Act.infoLog ("收到消息，转发至回调：" ++ sampleMsg.render)) :=
  (c9_local_emission_with_callback (fun _ _ => false) "alice"
      "http://sink/cb" (fun _ _ _ => PostOutcome.status 200) sampleMsg
      (by decide)).2

/-- Claim C10: the payload is fully built before the guarded HTTP call: if a
flag derivation raises, `_forward_msg` performs no action at all (in
particular no HTTP POST) and the exception escapes to the loop, which logs
it after the INFO line. -/
theorem c10_no_post_on_normalization_fault (env : Env) (m : WxMsg)
    (e : String) :
    (env.is_at_check m env.self_wxid = Except.error e →
        _forward_msg env m = ⟨[], some e⟩) ∧
    ((_forward_msg env m).exn = some e →
        (_forward_msg env m).actions = [] ∧
        ∀ url body t, Act.httpPost url body t ∉
          (_forward_msg env m).actions) ∧
    (env.cb ≠ "" → (_forward_msg env m).exn = some e →
        callbackStep env (PollResult.msg m) =
          [Act.infoLog ("收到消息，转发至回调：" ++ m.render),
            Act.errorLog ("Receiving message error: " ++ e)]) := by
  refine ⟨?_, ?_, ?_⟩
  · intro h1
    unfold _forward_msg
    rw [h1]
  · intro hexn
    have hact := forward_msg_exn_actions env m e hexn
    refine ⟨hact, ?_⟩
    intro url body t
    rw [hact]
    simp
  · intro hcb hexn
    have hact := forward_msg_exn_actions env m e hexn
    have hcb' : (env.cb != "") = true := by simp [hcb]
    simp [callbackStep, hcb', hact, hexn]

/-- Witness for C10: in the concrete faulty environment, the normalization
fault yields no POST and is logged by the loop. -/
theorem c10_no_post_on_normalization_fault_witness :
    _forward_msg faultyEnv sampleMsg = ⟨[], some "boom"⟩ ∧
    (_forward_msg faultyEnv sampleMsg).actions = [] ∧
    callbackStep faultyEnv (PollResult.msg sampleMsg) =
      [Act.infoLog ("收到消息，转发至回调：" ++ sampleMsg.render),
        Act.errorLog ("Receiving message error: " ++ "boom")] :=
  ⟨(c10_no_post_on_normalization_fault faultyEnv sampleMsg "boom").1 rfl,
   ((c10_no_post_on_normalization_fault faultyEnv sampleMsg "boom").2.1
      rfl).1,
   (c10_no_post_on_normalization_fault faultyEnv sampleMsg "boom").2.2
      (by decide) rfl⟩
